import Mathlib

/-!
A shallow embedding of `src/app.py`, a Flask application with three routes:

* `GET /`          → `home()`        renders `templates/index.html`;
* `GET /exam.pdf`  → `serve_pdf()`   serves a fixed PDF path or aborts 404;
* `GET /exam.json` → `serve_json()`  serves a fixed JSON path or aborts 404.

The filesystem is modelled as an abstract state `FS` giving, for each path,
whether it exists (`os.path.exists`) and what reading it yields (the bytes, or
a fault such as a permission error).  Each handler returns a
`HandlerOutcome` — a normal response, an `abort(status)` HTTP exception, or an
uncaught fault — together with the trace of filesystem and template events it
performed, in order.  The `framework` function models Flask turning an
`abort(404)` into a 404 response and an uncaught exception into a 500
response.  Handlers receive the ambient `Request` (Flask's request context);
none of the three handlers in the source consults it.
-/

/-- An uncaught exception (for example a permission error raised by a file
read), identified by its message. -/
structure Fault where
  msg : String
deriving DecidableEq

/-- The abstract filesystem / template state consulted by the handlers:
`pathExists` models `os.path.exists`, `readFile` models opening and reading a
file's bytes (which can fault even after a successful existence check), and
`render` models the template store backing `render_template`.

`render` is total — Modelled from the spec: `templates/index.html` is not under
`src/`; the spec states that `home()` returns the rendered homepage markup with
HTTP 200, so rendering the homepage template is modelled as always
succeeding. -/
structure FS where
  pathExists : String → Bool
  readFile : String → Except Fault (List Nat)
  render : String → String

/-- An HTTP request as delivered by the framework.  The handlers in
`src/app.py` take no parameters and never read the request context, so this
record is carried but unused. -/
structure Request where
  method : String
  query : String
  headers : List (String × String)
  body : List Nat
deriving DecidableEq

/-- An HTTP response: status code, optional Content-Type, body bytes. -/
structure Response where
  status : Nat
  contentType : Option String
  body : List Nat
deriving DecidableEq

/-- What a handler invocation produces before the framework post-processes it:
a normal response, an `abort(status)` HTTP exception, or an uncaught fault. -/
inductive HandlerOutcome where
  | response (r : Response)
  | httpError (status : Nat)
  | fault (e : Fault)
deriving DecidableEq

/-- An observable side-effecting step a handler performs, in program order.
`fileWrite` is the only mutating event; it exists so that "the handlers write
nothing" is a statement about traces, not a vacuity of the model.  No handler
in `src/app.py` emits it. -/
inductive Event where
  | existsCheck (path : String)
  | fileRead (path : String)
  | fileWrite (path : String) (content : List Nat)
  | templateRender (name : String)
deriving DecidableEq

/-- The fixed path of the PDF file in `serve_pdf` (`src/app.py` line 12). -/
def pdfPath : String := "/home/sabbirba10/exam.pdf"

/-- The fixed path of the JSON file in `serve_json` (`src/app.py` line 20). -/
def jsonPath : String := "/home/sabbirba10/exam.json"

/-- The mimetype passed to `send_file` in `serve_pdf`. -/
def ctPdf : String := "application/pdf"

/-- The mimetype passed to `send_file` in `serve_json`. -/
def ctJson : String := "application/json"

/-- The Content-Type Flask attaches to a rendered template response. -/
def ctHtml : String := "text/html"

/-- The template name passed to `render_template` in `home`. -/
def indexTemplate : String := "index.html"

/-- Markup characters as body bytes (code points; the byte-level encoding is
irrelevant to every claim, which only compare bodies for equality). -/
def strBytes (s : String) : List Nat := s.data.map Char.toNat

/-- `home()` (`src/app.py` lines 6-8): `return render_template('index.html')`.
Flask wraps the markup in a 200 response with Content-Type text/html. -/
def home (r : Request) (fs : FS) : HandlerOutcome × List Event :=
  (.response ⟨200, some ctHtml, strBytes (fs.render indexTemplate)⟩,
    [.templateRender indexTemplate])

/-- `serve_pdf()` (`src/app.py` lines 10-16): checks `os.path.exists(path)` for
the fixed path; if present, `send_file(path, mimetype='application/pdf')`
reads the file — yielding a 200 response with the bytes, or raising an
uncaught fault if the read fails; if absent, `abort(404)`. -/
def serve_pdf (r : Request) (fs : FS) : HandlerOutcome × List Event :=
  let path := pdfPath
  if fs.pathExists path then
    match fs.readFile path with
    | .ok b => (.response ⟨200, some ctPdf, b⟩, [.existsCheck path, .fileRead path])
    | .error e => (.fault e, [.existsCheck path, .fileRead path])
  else
    (.httpError 404, [.existsCheck path])

/-- `serve_json()` (`src/app.py` lines 18-24): same shape as `serve_pdf` with
the JSON path and `mimetype='application/json'`. -/
def serve_json (r : Request) (fs : FS) : HandlerOutcome × List Event :=
  let path := jsonPath
  if fs.pathExists path then
    match fs.readFile path with
    | .ok b => (.response ⟨200, some ctJson, b⟩, [.existsCheck path, .fileRead path])
    | .error e => (.fault e, [.existsCheck path, .fileRead path])
  else
    (.httpError 404, [.existsCheck path])

/-- Flask's post-processing of a handler invocation: a returned response is
passed through, an `abort(status)` HTTP exception becomes a response with that
status, and an uncaught exception becomes a 500 response. -/
def framework : HandlerOutcome → Response
  | .response r => r
  | .httpError s => ⟨s, none, []⟩
  | .fault _ => ⟨500, none, []⟩

/-- The effect of one event on the filesystem: only `fileWrite` changes
anything; existence checks, reads and template rendering leave the state
untouched. -/
def applyEvent (fs : FS) : Event → FS
  | .fileWrite p b =>
      { fs with
        pathExists := fun q => if q = p then true else fs.pathExists q,
        readFile := fun q => if q = p then Except.ok b else fs.readFile q }
  | _ => fs

/-- The cumulative effect of a trace on the filesystem. -/
def applyTrace (fs : FS) (es : List Event) : FS := es.foldl applyEvent fs

/-- The paths of all `fileRead` events in a trace, in order. -/
def readTargets (es : List Event) : List String :=
  es.filterMap fun e =>
    match e with
    | .fileRead p => some p
    | _ => none

/-- `serve_pdf`'s body abstracted over its two literals, following the spec
sentence that `serve_json()` has the contract of `serve_pdf()` with the JSON
path substituted for the PDF path and `application/json` for
`application/pdf`. -/
def serve_pdf_contract (path ct : String) (r : Request) (fs : FS) :
    HandlerOutcome × List Event :=
  if fs.pathExists path then
    match fs.readFile path with
    | .ok b => (.response ⟨200, some ct, b⟩, [.existsCheck path, .fileRead path])
    | .error e => (.fault e, [.existsCheck path, .fileRead path])
  else
    (.httpError 404, [.existsCheck path])

/-! Concrete states and a concrete request used by the witnesses. -/

/-- Sample PDF file bytes (the header bytes of a PDF file). -/
def pdfBytes : List Nat := [37, 80, 68, 70]

/-- Sample JSON file bytes (an empty JSON object). -/
def jsonBytes : List Nat := [123, 125]

/-- A permission-denied message. -/
def permMsg : String := "Permission denied"

/-- The permission-denied fault. -/
def permFault : Fault := ⟨permMsg⟩

/-- Sample homepage markup. -/
def homeMarkup : String := "<html><body>exam</body></html>"

/-- The GET method name. -/
def methodGet : String := "GET"

/-- A concrete request (its contents are irrelevant to every handler). -/
def reqSample : Request := ⟨methodGet, "", [], []⟩

/-- A state in which both files exist and read successfully. -/
def fsBoth : FS where
  pathExists := fun _ => true
  readFile := fun p => if p = pdfPath then Except.ok pdfBytes else Except.ok jsonBytes
  render := fun _ => homeMarkup

/-- A state in which no file exists. -/
def fsNone : FS where
  pathExists := fun _ => false
  readFile := fun _ => Except.error permFault
  render := fun _ => homeMarkup

/-- A state in which both files exist but every read is denied. -/
def fsDenied : FS where
  pathExists := fun _ => true
  readFile := fun _ => Except.error permFault
  render := fun _ => homeMarkup

/-! The claims. -/

/-- C1: in every filesystem state in which the PDF file exists (and its read
yields bytes `b`), `GET /exam.pdf` returns status 200 with Content-Type
`application/pdf` and body equal to those bytes. -/
theorem serve_pdf_present_200 (r : Request) (fs : FS) (b : List Nat)
    (hex : fs.pathExists pdfPath = true)
    (hrd : fs.readFile pdfPath = Except.ok b) :
    framework (serve_pdf r fs).1 = ⟨200, some ctPdf, b⟩ := by
  simp [serve_pdf, hex, hrd, framework]

/-- Witness for C1 at a concrete state with the PDF file present. -/
theorem serve_pdf_present_200_witness :
    framework (serve_pdf reqSample fsBoth).1 = ⟨200, some ctPdf, pdfBytes⟩ :=
  serve_pdf_present_200 reqSample fsBoth pdfBytes (by decide) (by simp [fsBoth])

/-- C2: in every filesystem state in which the PDF file is absent,
`GET /exam.pdf` returns status 404, and the handler's entire event trace is
the single existence check — so the 404 comes from the existence check and no
read was ever attempted. -/
theorem serve_pdf_absent_404 (r : Request) (fs : FS)
    (hex : fs.pathExists pdfPath = false) :
    (framework (serve_pdf r fs).1).status = 404 ∧
    (serve_pdf r fs).2 = [Event.existsCheck pdfPath] := by
  simp [serve_pdf, hex, framework]

/-- Witness for C2 at a concrete state with no files. -/
theorem serve_pdf_absent_404_witness :
    (framework (serve_pdf reqSample fsNone).1).status = 404 ∧
    (serve_pdf reqSample fsNone).2 = [Event.existsCheck pdfPath] :=
  serve_pdf_absent_404 reqSample fsNone (by decide)

/-- C3: in every filesystem state in which the JSON file exists (and its read
yields bytes `b`), `GET /exam.json` returns status 200 with Content-Type
`application/json` and body equal to those bytes. -/
theorem serve_json_present_200 (r : Request) (fs : FS) (b : List Nat)
    (hex : fs.pathExists jsonPath = true)
    (hrd : fs.readFile jsonPath = Except.ok b) :
    framework (serve_json r fs).1 = ⟨200, some ctJson, b⟩ := by
  simp [serve_json, hex, hrd, framework]

/-- Witness for C3 at a concrete state with the JSON file present. -/
theorem serve_json_present_200_witness :
    framework (serve_json reqSample fsBoth).1 = ⟨200, some ctJson, jsonBytes⟩ :=
  serve_json_present_200 reqSample fsBoth jsonBytes (by decide) (by simp [fsBoth, jsonPath, pdfPath])

/-- C4: in every filesystem state in which the JSON file is absent,
`GET /exam.json` returns status 404. -/
theorem serve_json_absent_404 (r : Request) (fs : FS)
    (hex : fs.pathExists jsonPath = false) :
    (framework (serve_json r fs).1).status = 404 := by
  simp [serve_json, hex, framework]

/-- Witness for C4 at a concrete state with no files. -/
theorem serve_json_absent_404_witness :
    (framework (serve_json reqSample fsNone).1).status = 404 :=
  serve_json_absent_404 reqSample fsNone (by decide)

/-- C5: in every filesystem state — in particular regardless of whether the
PDF or JSON file exists — `GET /` returns status 200 with the rendered
homepage markup as its body. -/
theorem home_always_200 (r : Request) (fs : FS) :
    home r fs =
      (.response ⟨200, some ctHtml, strBytes (fs.render indexTemplate)⟩,
        [Event.templateRender indexTemplate]) := rfl

/-- C6: `serve_json` is exactly `serve_pdf`'s definition with the JSON path
substituted for the PDF path and `application/json` for `application/pdf`:
both handlers equal the common abstracted contract at their respective
literals, on every request and filesystem state. -/
theorem serve_json_refines_pdf_contract (r : Request) (fs : FS) :
    serve_pdf r fs = serve_pdf_contract pdfPath ctPdf r fs ∧
    serve_json r fs = serve_pdf_contract jsonPath ctJson r fs :=
  ⟨rfl, rfl⟩

/-- C7: on either file route, if the existence check succeeds but the read
then fails with fault `e`, the handler propagates `e` uncaught (it is the
handler outcome itself, not a response), and the framework surfaces it as a
500 response. -/
theorem read_fault_uncaught_500 (r : Request) (fs : FS) (e : Fault) :
    (fs.pathExists pdfPath = true → fs.readFile pdfPath = Except.error e →
      (serve_pdf r fs).1 = .fault e ∧
      (framework (serve_pdf r fs).1).status = 500) ∧
    (fs.pathExists jsonPath = true → fs.readFile jsonPath = Except.error e →
      (serve_json r fs).1 = .fault e ∧
      (framework (serve_json r fs).1).status = 500) := by
  constructor <;> intro hex hrd <;>
    simp [serve_pdf, serve_json, hex, hrd, framework]

/-- Witness for C7 at a concrete state where both files exist but reading is
denied. -/
theorem read_fault_uncaught_500_witness :
    ((serve_pdf reqSample fsDenied).1 = .fault permFault ∧
      (framework (serve_pdf reqSample fsDenied).1).status = 500) ∧
    ((serve_json reqSample fsDenied).1 = .fault permFault ∧
      (framework (serve_json reqSample fsDenied).1).status = 500) :=
  ⟨(read_fault_uncaught_500 reqSample fsDenied permFault).1 (by decide) rfl,
   (read_fault_uncaught_500 reqSample fsDenied permFault).2 (by decide) rfl⟩

/-- C8: no handler mutates any state: on every request and filesystem state,
replaying any handler's full event trace onto the filesystem leaves it
exactly as it was — every emitted event is a read (existence check, file
read, or template render), never a write. -/
theorem handlers_mutate_nothing (r : Request) (fs : FS) :
    applyTrace fs (home r fs).2 = fs ∧
    applyTrace fs (serve_pdf r fs).2 = fs ∧
    applyTrace fs (serve_json r fs).2 = fs := by
  refine ⟨rfl, ?_, ?_⟩
  · cases hex : fs.pathExists pdfPath
    · simp [serve_pdf, hex, applyTrace, applyEvent]
    · cases hrd : fs.readFile pdfPath <;>
        simp [serve_pdf, hex, hrd, applyTrace, applyEvent]
  · cases hex : fs.pathExists jsonPath
    · simp [serve_json, hex, applyTrace, applyEvent]
    · cases hrd : fs.readFile jsonPath <;>
        simp [serve_json, hex, hrd, applyTrace, applyEvent]

/-- C9: every handler is deterministic in the filesystem state and
independent of the request: any two requests under the same state get the
identical outcome and trace, and the only paths the file handlers ever read
are their fixed constants. -/
theorem handlers_request_independent (r₁ r₂ : Request) (fs : FS) :
    home r₁ fs = home r₂ fs ∧
    serve_pdf r₁ fs = serve_pdf r₂ fs ∧
    serve_json r₁ fs = serve_json r₂ fs ∧
    (readTargets (serve_pdf r₁ fs).2).all (fun p => p == pdfPath) = true ∧
    (readTargets (serve_json r₁ fs).2).all (fun p => p == jsonPath) = true := by
  refine ⟨rfl, rfl, rfl, ?_, ?_⟩
  · cases hex : fs.pathExists pdfPath
    · simp [serve_pdf, hex, readTargets]
    · cases hrd : fs.readFile pdfPath <;>
        simp [serve_pdf, hex, hrd, readTargets]
  · cases hex : fs.pathExists jsonPath
    · simp [serve_json, hex, readTargets]
    · cases hrd : fs.readFile jsonPath <;>
        simp [serve_json, hex, hrd, readTargets]

/-- C10: in the absent-file branch of either file handler, the outcome is the
`abort(404)` HTTP exception and the complete event trace is one existence
check — the filesystem is never touched beyond that single query, and no
open or read is attempted. -/
theorem absent_branch_no_read (r : Request) (fs : FS) :
    (fs.pathExists pdfPath = false →
      serve_pdf r fs = (.httpError 404, [Event.existsCheck pdfPath])) ∧
    (fs.pathExists jsonPath = false →
      serve_json r fs = (.httpError 404, [Event.existsCheck jsonPath])) := by
  constructor <;> intro hex <;> simp [serve_pdf, serve_json, hex]

/-- Witness for C10 at a concrete state with no files. -/
theorem absent_branch_no_read_witness :
    serve_pdf reqSample fsNone = (.httpError 404, [Event.existsCheck pdfPath]) ∧
    serve_json reqSample fsNone = (.httpError 404, [Event.existsCheck jsonPath]) :=
  ⟨(absent_branch_no_read reqSample fsNone).1 (by decide),
   (absent_branch_no_read reqSample fsNone).2 (by decide)⟩
